import Mathlib

/-!
Verification of the BNG grid-reference conversion engine of `pyclms`
(`pyclms/core/utils.py`): the region/offset table built by
`_init_regions_and_offsets` and the conversion function `osgrid2bbox`.

The embedding models strings as Lean `String`s (lists of characters),
Python machine integers as `Int` (all arithmetic in `osgrid2bbox` is exact:
the float constants `1e3`, `1e4`, `1e5` and all sums that occur are exactly
representable, and `int(...)` recovers the integer), and exceptions as
`Except` values.  Each `raise BNGError(...)` site is a distinct constructor
of `BNGError`; `BNGError.message` recovers the exact Python message string.
-/

namespace PyCLMS

/-- Exception raised by the OS grid coordinate conversion functions.
One constructor per `raise` site in `osgrid2bbox`; `badInput` records the
`gridref` argument as passed (the Python message is built from `gridref`
before it is uppercased). -/
inductive BNGError where
  | badInput (gridref : String)
  | invalidCellSize
  | invalidGridSquare (region : String)
  | invalidCellSizeDispatch
deriving DecidableEq, Repr

/-- The message string carried by each `BNGError`, exactly as in the source.
The two invalid-cell-size raise sites produce the same message text. -/
def BNGError.message : BNGError → String
  | .badInput gridref =>
      "Valid gridref inputs are 2 characters and none, 2, 4, 6, 8 or 10-fig references as strings e.g. \x22NN123321\x22, or lists/tuples/arrays of strings. [" ++ gridref ++ "]"
  | .invalidCellSize =>
      "Invalid argument \x27os_cellsize\x27 supplied: values can only be \x2710km\x27 or \x27100km\x27"
  | .invalidGridSquare region =>
      "Invalid grid square code: " ++ region
  | .invalidCellSizeDispatch =>
      "Invalid argument \x27os_cellsize\x27 supplied: values can only be \x2710km\x27 or \x27100km\x27"

/-- The literal 13-row by 7-column grid of region codes for 100 km grid
squares from `_init_regions_and_offsets`. -/
def regions : List (List String) :=
  [["HL", "HM", "HN", "HO", "HP", "JL", "JM"],
   ["HQ", "HR", "HS", "HT", "HU", "JQ", "JR"],
   ["HV", "HW", "HX", "HY", "HZ", "JV", "JW"],
   ["NA", "NB", "NC", "ND", "NE", "OA", "OB"],
   ["NF", "NG", "NH", "NJ", "NK", "OF", "OG"],
   ["NL", "NM", "NN", "NO", "NP", "OL", "OM"],
   ["NQ", "NR", "NS", "NT", "NU", "OQ", "OR"],
   ["NV", "NW", "NX", "NY", "NZ", "OV", "OW"],
   ["SA", "SB", "SC", "SD", "SE", "TA", "TB"],
   ["SF", "SG", "SH", "SJ", "SK", "TF", "TG"],
   ["SL", "SM", "SN", "SO", "SP", "TL", "TM"],
   ["SQ", "SR", "SS", "ST", "SU", "TQ", "TR"],
   ["SV", "SW", "SX", "SY", "SZ", "TV", "TW"]]

/-- The Python idiom `list(zip(*rows))`: truncating transposition.  The i-th output
row collects the i-th element of every input row, for i below the minimum
row length (for no rows the result is empty, as for Python `zip()`). -/
def zipStar (rows : List (List α)) : List (List α) :=
  match (rows.map List.length).min? with
  | none => []
  | some m => (List.range m).map (fun i => rows.filterMap (fun r => r.get? i))

/-- `regions = list(zip(*regions[::-1]))`: the reversed-then-transposed grid
over which the offsets are enumerated. -/
def regionRows : List (List String) := zipStar regions.reverse

/-- The (key, offset) pairs inserted into `offset_map`:
`offset_map[region] = (1e5 * i, 1e5 * j)` for `region` at row `i`, column
`j` of `regionRows`.  All keys are distinct (see the table theorems), so the
insertion order is irrelevant to the resulting mapping. -/
def offsetEntries : List (String × Int × Int) :=
  regionRows.enum.flatMap fun p =>
    p.2.enum.map fun q => (q.2, (100000 * (p.1 : Int), 100000 * (q.1 : Int)))

/-- Lookup in `_offset_map` (`none` models a `KeyError`). -/
def offsetMap (region : String) : Option (Int × Int) :=
  (offsetEntries.find? (fun e => e.1 == region)).map (·.2)

/-- `gridref.upper()`, character by character (basic latin letters, which is
all the grid machinery distinguishes). -/
def pyUpper (s : String) : String := String.mk (s.data.map Char.toUpper)

/-- A character matched by the regex class `[A-Z]`. -/
def isUpperLetter (c : Char) : Bool := 65 ≤ c.toNat && c.toNat ≤ 90

/-- A character matched by the regex class `\d` (ASCII digits, as matched on
the inputs at hand). -/
def isDigitCh (c : Char) : Bool := 48 ≤ c.toNat && c.toNat ≤ 57

/-- The Python builtin `int(...)` on a non-empty string of ASCII digits. -/
def pyInt (l : List Char) : Int :=
  ((l.foldl (fun a c => 10 * a + (c.toNat - 48)) 0 : Nat) : Int)

/-- Full match of a string against the validation regex for the 1 km / 10 km
cell sizes, returning the two capture groups: two uppercase letters followed
by exactly 2, 4, 6, 8 or 10 digits. -/
def matchFull (g : String) : Option (String × String) :=
  let region := g.data.take 2
  let digits := g.data.drop 2
  if region.length = 2 ∧ region.all isUpperLetter ∧ digits.all isDigitCh ∧
      (digits.length = 2 ∨ digits.length = 4 ∨ digits.length = 6 ∨
       digits.length = 8 ∨ digits.length = 10)
  then some (String.mk region, String.mk digits)
  else none

/-- Anchored match of the regex for the 100 km cell size: two uppercase
letters at the start of the string; the rest of the string is ignored. -/
def matchRegion (g : String) : Option String :=
  let region := g.data.take 2
  if region.length = 2 ∧ region.all isUpperLetter then some (String.mk region)
  else none

/-- `rescaling[os_cellsize]["coord_len"]`. -/
def coordLen (cs : String) : Nat := if cs = "1km" then 2 else 1

/-- `rescaling[os_cellsize]["scale_factor"]`. -/
def scaleFactor (cs : String) : Int := if cs = "1km" then 1000 else 10000

/-- The metric bounding box `bbox_27700` assembled by `osgrid2bbox`
(the dictionary keys `xmin`, `xmax`, `ymin`, `ymax`). -/
structure Bbox where
  xmin : Int
  xmax : Int
  ymin : Int
  ymax : Int
deriving DecidableEq, Repr

/-- The validation section of `osgrid2bbox` (lines 107-129): parse the
uppercased gridref `g` according to `os_cellsize`, producing the `region`
and `coords` capture groups (`coords` is unused and left empty in the 100 km
branch, which binds no coords variable). -/
def parseStage (gridref g os_cellsize : String) : Except BNGError (String × String) :=
  if os_cellsize = "1km" ∨ os_cellsize = "10km" then
    match matchFull g with
    | some rc => Except.ok rc
    | none => Except.error (BNGError.badInput gridref)
  else if os_cellsize = "100km" then
    match matchRegion g with
    | some r => Except.ok (r, "")
    | none => Except.error (BNGError.badInput gridref)
  else
    Except.error BNGError.invalidCellSize

/-- The bounding-box dispatch of `osgrid2bbox` (lines 142-162), reached with
the region offset already resolved. -/
def dispatchStage (os_cellsize coords : String) (off : Int × Int) : Except BNGError Bbox :=
  if os_cellsize = "100km" then
    Except.ok ⟨off.1, off.1 + 100000, off.2, off.2 + 100000⟩
  else if os_cellsize = "1km" ∨ os_cellsize = "10km" then
    let cl := coordLen os_cellsize
    let sf := scaleFactor os_cellsize
    let easting := pyInt (coords.data.take cl)
    let northing := pyInt ((coords.data.drop (coords.data.length / 2)).take cl)
    Except.ok ⟨easting * sf + off.1, easting * sf + off.1 + 10000,
               northing * sf + off.2, northing * sf + off.2 + 10000⟩
  else
    Except.error BNGError.invalidCellSizeDispatch

/-- `osgrid2bbox(gridref, os_cellsize, ...)` up to and including the metric
bounding box `bbox_27700`: validate, resolve the region offset, compute the
box.  The CRS reprojection applied on top is modelled by `osgrid2bboxIn`. -/
def osgrid2bbox (gridref os_cellsize : String) : Except BNGError Bbox :=
  let g := pyUpper gridref
  match parseStage gridref g os_cellsize with
  | Except.error e => Except.error e
  | Except.ok (region, coords) =>
    match offsetMap region with
    | none => Except.error (BNGError.invalidGridSquare region)
    | some off => dispatchStage os_cellsize coords off

/-- The reprojected bounding box returned to the caller (dictionary keys
`x_min`, `x_max`, `y_min`, `y_max`). -/
structure BboxT where
  x_min : ℚ
  x_max : ℚ
  y_min : ℚ
  y_max : ℚ
deriving DecidableEq, Repr

/-- The CRS reprojection step: transform the `(xmin, ymin)` and
`(xmax, ymax)` corners independently through the transformer `tf`. -/
def transformBbox (tf : Int × Int → ℚ × ℚ) (b : Bbox) : BboxT :=
  let lo := tf (b.xmin, b.ymin)
  let hi := tf (b.xmax, b.ymax)
  ⟨lo.1, hi.1, lo.2, hi.2⟩

/-- The full `osgrid2bbox`, with the pyproj transformer determined by the
target EPSG code abstracted as a function `tf` on corner points. -/
def osgrid2bboxIn (tf : Int × Int → ℚ × ℚ) (gridref os_cellsize : String) :
    Except BNGError BboxT :=
  (osgrid2bbox gridref os_cellsize).map (transformBbox tf)

/-- The literal region grid with its row order reversed (`regions[::-1]`),
before transposition.  Used to state the claims about offset assignment. -/
def reversedRegions : List (List String) := regions.reverse

/-- The keys of `offset_map`, in insertion order. -/
def tableKeys : List String := offsetEntries.map Prod.fst

/-- The offset values of `offset_map`, in insertion order. -/
def tableOffsets : List (Int × Int) := offsetEntries.map Prod.snd

/-- The complete regular grid of offsets with 100,000 m spacing: 7 cells of
100 km along the easting axis (700 km) and 13 cells along the northing axis
(1,300 km). -/
def fullGrid : List (Int × Int) :=
  (List.range 7).flatMap fun i => (List.range 13).map fun j =>
    ((100000 * (i : Int), 100000 * (j : Int)))

/-- The first half of a digit string. -/
def firstHalf (l : List Char) : List Char := l.take (l.length / 2)

/-- The second half of a digit string. -/
def secondHalf (l : List Char) : List Char := l.drop (l.length / 2)

/-- Following the words of claim C1 (not the source): the integer value of
the first `coord_len` digits of the FIRST HALF of the digit string. -/
def claimEasting (coords : List Char) (cl : Nat) : Int := pyInt ((firstHalf coords).take cl)

/-- Following the words of claim C1 (not the source): the integer value of
the first `coord_len` digits of the second half of the digit string. -/
def claimNorthing (coords : List Char) (cl : Nat) : Int := pyInt ((secondHalf coords).take cl)

/-- Claim C1 exactly as stated: for every accepted 1 km / 10 km reference
whose region is in the table, `x_min` and `y_min` are obtained from the
first `coord_len` digits of the two halves of the digit string, scaled and
offset. -/
def C1Statement : Prop :=
  ∀ (s cs region coords : String) (off : Int × Int),
    (cs = "10km" ∨ cs = "1km") →
    matchFull (pyUpper s) = some (region, coords) →
    offsetMap region = some off →
    (osgrid2bbox s cs).map (fun b => (b.xmin, b.ymin)) =
      Except.ok (claimEasting coords.data (coordLen cs) * scaleFactor cs + off.1,
                 claimNorthing coords.data (coordLen cs) * scaleFactor cs + off.2)

/-- The region code extracted by the validation stage for a given cell size
(`none` when validation fails or the cell size is unrecognised). -/
def parsedRegion (g cs : String) : Option String :=
  if cs = "1km" ∨ cs = "10km" then (matchFull g).map Prod.fst
  else if cs = "100km" then matchRegion g
  else none

end PyCLMS

deriving instance DecidableEq for Except

namespace PyCLMS

/-! ### Helper lemmas: evaluation of `osgrid2bbox` in each of its cases -/

theorem char_toNat_ofNat (n : Nat) (h : n.isValidChar) : (Char.ofNat n).toNat = n := by
  rw [Char.ofNat, dif_pos h]
  simp [Char.ofNatAux, Char.toNat, UInt32.toNat]

theorem char_toUpper_toUpper (c : Char) : c.toUpper.toUpper = c.toUpper := by
  unfold Char.toUpper
  by_cases h : c.toNat ≥ 97 ∧ c.toNat ≤ 122
  · rw [if_pos h]
    have hv : (c.toNat - 32).isValidChar := Or.inl (by omega)
    have ht : (Char.ofNat (c.toNat - 32)).toNat = c.toNat - 32 := char_toNat_ofNat _ hv
    rw [if_neg]
    rw [ht]
    omega
  · rw [if_neg h, if_neg h]

theorem pyUpper_idem (s : String) : pyUpper (pyUpper s) = pyUpper s := by
  simp [pyUpper, List.map_map, Function.comp_def, char_toUpper_toUpper]

theorem osgrid2bbox_smallFail (s cs : String) (h : cs = "1km" ∨ cs = "10km")
    (hm : matchFull (pyUpper s) = none) :
    osgrid2bbox s cs = Except.error (BNGError.badInput s) := by
  rcases h with rfl | rfl <;> simp [osgrid2bbox, parseStage, hm]

theorem osgrid2bbox_smallNoRegion (s cs region coords : String)
    (h : cs = "1km" ∨ cs = "10km")
    (hm : matchFull (pyUpper s) = some (region, coords))
    (ho : offsetMap region = none) :
    osgrid2bbox s cs = Except.error (BNGError.invalidGridSquare region) := by
  rcases h with rfl | rfl <;> simp [osgrid2bbox, parseStage, hm, ho]

theorem osgrid2bbox_smallOk (s cs region coords : String) (off : Int × Int)
    (h : cs = "1km" ∨ cs = "10km")
    (hm : matchFull (pyUpper s) = some (region, coords))
    (ho : offsetMap region = some off) :
    osgrid2bbox s cs = Except.ok
      ⟨pyInt (coords.data.take (coordLen cs)) * scaleFactor cs + off.1,
       pyInt (coords.data.take (coordLen cs)) * scaleFactor cs + off.1 + 10000,
       pyInt ((secondHalf coords.data).take (coordLen cs)) * scaleFactor cs + off.2,
       pyInt ((secondHalf coords.data).take (coordLen cs)) * scaleFactor cs + off.2 + 10000⟩ := by
  rcases h with rfl | rfl <;>
    simp [osgrid2bbox, parseStage, hm, ho, dispatchStage, secondHalf, coordLen, scaleFactor]

theorem osgrid2bbox_100Fail (s : String) (hr : matchRegion (pyUpper s) = none) :
    osgrid2bbox s "100km" = Except.error (BNGError.badInput s) := by
  simp [osgrid2bbox, parseStage, hr]

theorem osgrid2bbox_100NoRegion (s region : String)
    (hr : matchRegion (pyUpper s) = some region) (ho : offsetMap region = none) :
    osgrid2bbox s "100km" = Except.error (BNGError.invalidGridSquare region) := by
  simp [osgrid2bbox, parseStage, hr, ho]

theorem osgrid2bbox_100Ok (s region : String) (off : Int × Int)
    (hr : matchRegion (pyUpper s) = some region) (ho : offsetMap region = some off) :
    osgrid2bbox s "100km" =
      Except.ok ⟨off.1, off.1 + 100000, off.2, off.2 + 100000⟩ := by
  simp [osgrid2bbox, parseStage, hr, ho, dispatchStage]

theorem osgrid2bbox_badCellSize (s cs : String) (h1 : ¬(cs = "1km" ∨ cs = "10km"))
    (h2 : cs ≠ "100km") :
    osgrid2bbox s cs = Except.error BNGError.invalidCellSize := by
  simp [osgrid2bbox, parseStage, h1, h2]

end PyCLMS

namespace PyCLMS

/-! ### Claim theorems -/

/-- C1, counterexample: the claim as stated fails on `osgrid2bbox("NT27", "1km")`.
The source computes `easting = int(coords[0:2]) = 27` (the first two digits of
the WHOLE digit string, spilling into the second half), giving
`x_min = 327000`, whereas the first `coord_len` digits of the first half give
`2`, hence `x_min = 302000`. -/
theorem C1_counterexample : ¬ C1Statement := by
  intro h
  have h2 := h "NT27" "1km" "NT" "27" (300000, 600000) (Or.inr rfl) (by decide) (by decide)
  exact absurd h2 (by decide)

/-- C1, amended: for every accepted 1 km / 10 km reference whose region is in
the table, `y_min` is as claimed (`northing` is the integer value of the first
`coord_len` digits of the second half of the digit string, scaled and offset),
but `easting` is the integer value of the first `coord_len` digits of the
WHOLE digit string, with `x_min = easting * scale + easting offset`.  The two
descriptions agree whenever the first half holds at least `coord_len` digits,
i.e. always for 10 km, and for 1 km except on 2-digit references. -/
theorem C1_scaling_amended (s cs region coords : String) (off : Int × Int)
    (hcs : cs = "10km" ∨ cs = "1km")
    (hm : matchFull (pyUpper s) = some (region, coords))
    (ho : offsetMap region = some off) :
    (osgrid2bbox s cs).map (fun b => (b.xmin, b.ymin)) =
      Except.ok (pyInt (coords.data.take (coordLen cs)) * scaleFactor cs + off.1,
                 claimNorthing coords.data (coordLen cs) * scaleFactor cs + off.2) := by
  rw [osgrid2bbox_smallOk s cs region coords off hcs.symm hm ho]
  rfl

/-- C1, witness: the amended theorem applied to `"NT2755062950"` at 10 km. -/
theorem C1_witness :
    (osgrid2bbox "NT2755062950" "10km").map (fun b => (b.xmin, b.ymin)) =
      Except.ok (320000, 660000) := by
  have h := C1_scaling_amended "NT2755062950" "10km" "NT" "2755062950" (300000, 600000)
    (Or.inl rfl) (by decide) (by decide)
  exact h.trans (by decide)

/-- C2: every box computed for an accepted 1 km or 10 km reference with a known
region has both extents exactly 10,000 m (the extent is hard-coded to `1e4`
for both cell sizes, so a 1 km box is 10 km wide). -/
theorem C2_extent_10000 (s cs region coords : String) (off : Int × Int)
    (hcs : cs = "10km" ∨ cs = "1km")
    (hm : matchFull (pyUpper s) = some (region, coords))
    (ho : offsetMap region = some off) :
    ∃ b, osgrid2bbox s cs = Except.ok b ∧ b.xmax - b.xmin = 10000 ∧ b.ymax - b.ymin = 10000 :=
  ⟨_, osgrid2bbox_smallOk s cs region coords off hcs.symm hm ho, by ring, by ring⟩

/-- C2, witness: the 1 km box of `"NT2755062950"` has both extents 10,000. -/
theorem C2_witness :
    ∃ b, osgrid2bbox "NT2755062950" "1km" = Except.ok b ∧
      b.xmax - b.xmin = 10000 ∧ b.ymax - b.ymin = 10000 :=
  C2_extent_10000 "NT2755062950" "1km" "NT" "2755062950" (300000, 600000)
    (Or.inr rfl) (by decide) (by decide)

/-- C3: under cell size 100 km, any input whose first two uppercased
characters form a region code of the table yields exactly the offset cell of
that region, with both extents exactly 100,000 m. -/
theorem C3_100km_box (s region : String) (off : Int × Int)
    (hr : matchRegion (pyUpper s) = some region)
    (ho : offsetMap region = some off) :
    osgrid2bbox s "100km" = Except.ok ⟨off.1, off.1 + 100000, off.2, off.2 + 100000⟩ ∧
    (off.1 + 100000) - off.1 = 100000 ∧ (off.2 + 100000) - off.2 = 100000 :=
  ⟨osgrid2bbox_100Ok s region off hr ho, by ring, by ring⟩

/-- C3, witness: the 100 km box of `"NT2755062950"`. -/
theorem C3_witness :
    osgrid2bbox "NT2755062950" "100km" = Except.ok ⟨300000, 400000, 600000, 700000⟩ := by
  have h := C3_100km_box "NT2755062950" "NT" (300000, 600000) (by decide) (by decide)
  exact h.1.trans (by decide)

end PyCLMS

namespace PyCLMS

/-- C4, counterexample: in the row-reversed grid (no transposition), the code
at position (0, 1) is `"SW"`, and the table maps it to (100000, 0), not to
the claimed `(100000 * row_index, 100000 * col_index) = (0, 100000)`. -/
theorem C4_counterexample :
    (reversedRegions.get? 0).bind (fun row => row.get? 1) = some "SW" ∧
    offsetMap "SW" = some (100000, 0) ∧
    ¬ offsetMap "SW" = some (100000 * (0 : Int), 100000 * (1 : Int)) := by decide

/-- C4, amended: the builder reverses the row order AND transposes
(`zip(*regions[::-1])`); equivalently, the code at position
(row_index, col_index) of the row-reversed grid is mapped to the offset
`(100000 * col_index, 100000 * row_index)`. -/
theorem C4_offsets_amended :
    (reversedRegions.enum.all fun p =>
      p.2.enum.all fun q =>
        offsetMap q.2 == some (100000 * (q.1 : Int), 100000 * (p.1 : Int))) = true := by
  decide

/-- C5: the table has exactly the 91 codes of the fixed layout as keys, each
exactly once; the offsets are pairwise distinct, each coordinate a
non-negative multiple of 100,000; and together the offsets are exactly the
complete regular 100,000-spaced grid of 7 easting cells (700 km) by 13
northing cells (1,300 km). -/
theorem C5_table_invariants :
    tableKeys.Nodup ∧ tableKeys.length = 91 ∧ List.Perm tableKeys regions.flatten ∧
    tableOffsets.Nodup ∧
    (∀ p ∈ tableOffsets, 0 ≤ p.1 ∧ p.1 % 100000 = 0 ∧ 0 ≤ p.2 ∧ p.2 % 100000 = 0) ∧
    List.Perm tableOffsets fullGrid := by
  decide

/-- C5, witness: the bounded quantifier applied to the offset of `"NT"`. -/
theorem C5_witness :
    0 ≤ ((300000 : Int), (600000 : Int)).1 ∧ ((300000 : Int), (600000 : Int)).1 % 100000 = 0 ∧
    0 ≤ ((300000 : Int), (600000 : Int)).2 ∧ ((300000 : Int), (600000 : Int)).2 % 100000 = 0 :=
  C5_table_invariants.2.2.2.2.1 (300000, 600000) (by decide)

/-- C6, counterexample: the 1 km / 10 km validation pattern requires 2, 4, 6,
8 or 10 digits, so the bare two-letter code `"NT"` does NOT match, and
`osgrid2bbox` raises `BNGError` at the parsing stage. -/
theorem C6_counterexample :
    matchFull (pyUpper "NT") = none ∧
    osgrid2bbox "NT" "10km" = Except.error (BNGError.badInput "NT") := by decide

/-- C6, amended: for cell sizes `"1km"` and `"10km"`, every two-character
input (in particular a bare two-letter region code) is rejected by the
validation pattern and raises the bad-input `BNGError` at the parsing
stage. -/
theorem C6_bare_code_rejected (s cs : String) (hlen : s.data.length = 2)
    (hcs : cs = "1km" ∨ cs = "10km") :
    osgrid2bbox s cs = Except.error (BNGError.badInput s) := by
  apply osgrid2bbox_smallFail s cs hcs
  have hl : (pyUpper s).data.length = 2 := by simp [pyUpper, hlen]
  have hlen0 : ((pyUpper s).data.drop 2).length = 0 := by rw [List.length_drop, hl]
  have hnil : (pyUpper s).data.drop 2 = [] := List.eq_nil_of_length_eq_zero hlen0
  simp [matchFull, hnil]

/-- C6, witness: the amended theorem applied to `"nt"` at 1 km. -/
theorem C6_witness : osgrid2bbox "nt" "1km" = Except.error (BNGError.badInput "nt") :=
  C6_bare_code_rejected "nt" "1km" (by decide) (Or.inl rfl)

end PyCLMS

namespace PyCLMS

/-- C7: `osgrid2bbox` results in a `BNGError` exactly when the cell size is
not one of the three recognised values, or the uppercased gridref fails the
pattern required for the given cell size, or the extracted region code is
not a key of the table; and in the unknown-region case the error is
`invalidGridSquare r`, whose message names the offending code.  Errors are
values of the `Except` sum, so an error excludes any (partial) bounding-box
result. -/
theorem C7_error_conditions (s cs : String) :
    ((∃ e, osgrid2bbox s cs = Except.error e) ↔
      ((cs ≠ "1km" ∧ cs ≠ "10km" ∧ cs ≠ "100km") ∨
       parsedRegion (pyUpper s) cs = none ∨
       ∃ r, parsedRegion (pyUpper s) cs = some r ∧ offsetMap r = none)) ∧
    (∀ r, parsedRegion (pyUpper s) cs = some r → offsetMap r = none →
      osgrid2bbox s cs = Except.error (BNGError.invalidGridSquare r) ∧
      (BNGError.invalidGridSquare r).message = "Invalid grid square code: " ++ r) := by
  constructor
  · by_cases h1 : cs = "1km" ∨ cs = "10km"
    · cases hm : matchFull (pyUpper s) with
      | none =>
        rw [osgrid2bbox_smallFail s cs h1 hm]
        apply iff_of_true ⟨_, rfl⟩
        exact Or.inr (Or.inl (by simp [parsedRegion, h1, hm]))
      | some rc =>
        obtain ⟨region, coords⟩ := rc
        cases ho : offsetMap region with
        | none =>
          rw [osgrid2bbox_smallNoRegion s cs region coords h1 hm ho]
          apply iff_of_true ⟨_, rfl⟩
          exact Or.inr (Or.inr ⟨region, by simp [parsedRegion, h1, hm], ho⟩)
        | some off =>
          rw [osgrid2bbox_smallOk s cs region coords off h1 hm ho]
          apply iff_of_false
          · rintro ⟨e, he⟩
            exact Except.noConfusion he
          · rintro (⟨hA, hB, -⟩ | hP | ⟨r, hr, hro⟩)
            · rcases h1 with rfl | rfl
              · exact hA rfl
              · exact hB rfl
            · rw [parsedRegion, if_pos h1, hm] at hP
              exact Option.noConfusion hP
            · rw [parsedRegion, if_pos h1, hm] at hr
              simp only [Option.map_some', Option.some.injEq] at hr
              rw [← hr] at hro
              rw [ho] at hro
              exact Option.noConfusion hro
    · by_cases h2 : cs = "100km"
      · subst h2
        cases hr : matchRegion (pyUpper s) with
        | none =>
          rw [osgrid2bbox_100Fail s hr]
          apply iff_of_true ⟨_, rfl⟩
          exact Or.inr (Or.inl (by simp [parsedRegion, h1, hr]))
        | some region =>
          cases ho : offsetMap region with
          | none =>
            rw [osgrid2bbox_100NoRegion s region hr ho]
            apply iff_of_true ⟨_, rfl⟩
            exact Or.inr (Or.inr ⟨region, by simp [parsedRegion, h1, hr], ho⟩)
          | some off =>
            rw [osgrid2bbox_100Ok s region off hr ho]
            apply iff_of_false
            · rintro ⟨e, he⟩
              exact Except.noConfusion he
            · rintro (⟨-, -, hC⟩ | hP | ⟨r, hrr, hro⟩)
              · exact hC rfl
              · rw [parsedRegion, if_neg h1, if_pos rfl, hr] at hP
                exact Option.noConfusion hP
              · rw [parsedRegion, if_neg h1, if_pos rfl, hr] at hrr
                simp only [Option.some.injEq] at hrr
                rw [← hrr] at hro
                rw [ho] at hro
                exact Option.noConfusion hro
      · rw [osgrid2bbox_badCellSize s cs h1 h2]
        apply iff_of_true ⟨_, rfl⟩
        push_neg at h1
        exact Or.inl ⟨h1.1, h1.2, h2⟩
  · intro r hr ho
    refine ⟨?_, rfl⟩
    by_cases h1 : cs = "1km" ∨ cs = "10km"
    · rw [parsedRegion, if_pos h1] at hr
      cases hm : matchFull (pyUpper s) with
      | none =>
        rw [hm] at hr
        exact Option.noConfusion hr
      | some rc =>
        obtain ⟨region, coords⟩ := rc
        rw [hm] at hr
        simp only [Option.map_some', Option.some.injEq] at hr
        rw [← hr]
        exact osgrid2bbox_smallNoRegion s cs region coords h1 hm (by rw [hr]; exact ho)
    · by_cases h2 : cs = "100km"
      · subst h2
        rw [parsedRegion, if_neg h1, if_pos rfl] at hr
        exact osgrid2bbox_100NoRegion s r hr ho
      · rw [parsedRegion, if_neg h1, if_neg h2] at hr
        exact Option.noConfusion hr

/-- C7, witness: the unknown-region error, applied to `"qq12"` at 10 km. -/
theorem C7_witness :
    osgrid2bbox "qq12" "10km" = Except.error (BNGError.invalidGridSquare "QQ") ∧
    (BNGError.invalidGridSquare "QQ").message = "Invalid grid square code: " ++ "QQ" :=
  (C7_error_conditions "qq12" "10km").2 "QQ" (by decide) (by decide)

end PyCLMS

namespace PyCLMS

theorem osgrid2bbox_pyUpper (s cs : String) :
    osgrid2bbox (pyUpper s) cs = osgrid2bbox s cs ∨
    (osgrid2bbox s cs = Except.error (BNGError.badInput s) ∧
     osgrid2bbox (pyUpper s) cs = Except.error (BNGError.badInput (pyUpper s))) := by
  by_cases h1 : cs = "1km" ∨ cs = "10km"
  · cases hm : matchFull (pyUpper s) with
    | none =>
      have hm2 : matchFull (pyUpper (pyUpper s)) = none := by rw [pyUpper_idem]; exact hm
      exact Or.inr ⟨osgrid2bbox_smallFail s cs h1 hm, osgrid2bbox_smallFail (pyUpper s) cs h1 hm2⟩
    | some rc =>
      obtain ⟨region, coords⟩ := rc
      have hm2 : matchFull (pyUpper (pyUpper s)) = some (region, coords) := by
        rw [pyUpper_idem]; exact hm
      cases ho : offsetMap region with
      | none =>
        exact Or.inl ((osgrid2bbox_smallNoRegion (pyUpper s) cs region coords h1 hm2 ho).trans
          (osgrid2bbox_smallNoRegion s cs region coords h1 hm ho).symm)
      | some off =>
        exact Or.inl ((osgrid2bbox_smallOk (pyUpper s) cs region coords off h1 hm2 ho).trans
          (osgrid2bbox_smallOk s cs region coords off h1 hm ho).symm)
  · by_cases h2 : cs = "100km"
    · subst h2
      cases hr : matchRegion (pyUpper s) with
      | none =>
        have hr2 : matchRegion (pyUpper (pyUpper s)) = none := by rw [pyUpper_idem]; exact hr
        exact Or.inr ⟨osgrid2bbox_100Fail s hr, osgrid2bbox_100Fail (pyUpper s) hr2⟩
      | some region =>
        have hr2 : matchRegion (pyUpper (pyUpper s)) = some region := by
          rw [pyUpper_idem]; exact hr
        cases ho : offsetMap region with
        | none =>
          exact Or.inl ((osgrid2bbox_100NoRegion (pyUpper s) region hr2 ho).trans
            (osgrid2bbox_100NoRegion s region hr ho).symm)
        | some off =>
          exact Or.inl ((osgrid2bbox_100Ok (pyUpper s) region off hr2 ho).trans
            (osgrid2bbox_100Ok s region off hr ho).symm)
    · exact Or.inl ((osgrid2bbox_badCellSize (pyUpper s) cs h1 h2).trans
        (osgrid2bbox_badCellSize s cs h1 h2).symm)

/-- C8, counterexample: the claim as stated fails on the pattern-failing
input `"nt"` at 10 km: both calls raise `BNGError`, but not the same error,
because the bad-input message quotes the gridref as originally supplied
(before uppercasing), so the two messages differ. -/
theorem C8_counterexample :
    osgrid2bboxIn (fun p => ((p.1 : ℚ), (p.2 : ℚ))) "nt" "10km" ≠
      osgrid2bboxIn (fun p => ((p.1 : ℚ), (p.2 : ℚ))) "NT" "10km" := by decide

/-- C8, amended: for every transformer, gridref and cell size, the call on
the gridref and on its uppercased form return the same result and raise the
same error in the same cases, except that when the input fails pattern
validation each bad-input error embeds the gridref exactly as supplied. -/
theorem C8_case_insensitive_amended (tf : Int × Int → ℚ × ℚ) (s cs : String) :
    osgrid2bboxIn tf s cs = osgrid2bboxIn tf (pyUpper s) cs ∨
    (osgrid2bboxIn tf s cs = Except.error (BNGError.badInput s) ∧
     osgrid2bboxIn tf (pyUpper s) cs = Except.error (BNGError.badInput (pyUpper s))) := by
  rcases osgrid2bbox_pyUpper s cs with h | ⟨h1, h2⟩
  · exact Or.inl (by rw [osgrid2bboxIn, osgrid2bboxIn, h])
  · exact Or.inr ⟨by rw [osgrid2bboxIn, h1]; rfl, by rw [osgrid2bboxIn, h2]; rfl⟩

/-- C9: under cell size 100 km, only the first two uppercased characters
matter: two inputs agreeing on a valid two-uppercase-letter two-character
region code give identical results, for every transformer. -/
theorem C9_region_only (tf : Int × Int → ℚ × ℚ) (s t : String)
    (h : ∃ r, matchRegion (pyUpper s) = some r ∧ matchRegion (pyUpper t) = some r) :
    osgrid2bboxIn tf s "100km" = osgrid2bboxIn tf t "100km" := by
  obtain ⟨r, hs, ht⟩ := h
  cases ho : offsetMap r with
  | none =>
    rw [osgrid2bboxIn, osgrid2bboxIn, osgrid2bbox_100NoRegion s r hs ho,
      osgrid2bbox_100NoRegion t r ht ho]
  | some off =>
    rw [osgrid2bboxIn, osgrid2bboxIn, osgrid2bbox_100Ok s r off hs ho,
      osgrid2bbox_100Ok t r off ht ho]

/-- C9, witness: `"NT2755062950"` and `"ntxyz"` agree on their 100 km box. -/
theorem C9_witness :
    osgrid2bboxIn (fun p => ((p.1 : ℚ), (p.2 : ℚ))) "NT2755062950" "100km" =
      osgrid2bboxIn (fun p => ((p.1 : ℚ), (p.2 : ℚ))) "ntxyz" "100km" :=
  C9_region_only _ "NT2755062950" "ntxyz" ⟨"NT", by decide, by decide⟩

/-- C10: the final invalid-cell-size branch of the bounding-box dispatch is
unreachable: no input makes `osgrid2bbox` return its error, because any cell
size other than the three recognised values already fails validation. -/
theorem C10_dispatch_unreachable (s cs : String) :
    osgrid2bbox s cs ≠ Except.error BNGError.invalidCellSizeDispatch := by
  by_cases h1 : cs = "1km" ∨ cs = "10km"
  · cases hm : matchFull (pyUpper s) with
    | none => rw [osgrid2bbox_smallFail s cs h1 hm]; simp
    | some rc =>
      obtain ⟨region, coords⟩ := rc
      cases ho : offsetMap region with
      | none => rw [osgrid2bbox_smallNoRegion s cs region coords h1 hm ho]; simp
      | some off => rw [osgrid2bbox_smallOk s cs region coords off h1 hm ho]; simp
  · by_cases h2 : cs = "100km"
    · subst h2
      cases hr : matchRegion (pyUpper s) with
      | none => rw [osgrid2bbox_100Fail s hr]; simp
      | some region =>
        cases ho : offsetMap region with
        | none => rw [osgrid2bbox_100NoRegion s region hr ho]; simp
        | some off => rw [osgrid2bbox_100Ok s region off hr ho]; simp
    · rw [osgrid2bbox_badCellSize s cs h1 h2]; simp

/-- C10, witness: the unreachability theorem applied to cell size `"20km"`. -/
theorem C10_witness :
    osgrid2bbox "NT2755062950" "20km" ≠ Except.error BNGError.invalidCellSizeDispatch :=
  C10_dispatch_unreachable "NT2755062950" "20km"

end PyCLMS
